import Mathlib

/-!
# Verification of the geomstats ODE-IVP solver layer (`geomstats/solvers.py`)

Shallow embedding of the solver module: the fixed-step integrator
(`GSIntegrator`), the adaptive adapter (`SCPSolveIVP`) and the exponential-map
ODE solver (`ExpODESolver`).  Numeric arrays are embedded as rationals,
pairs (stacks of two arrays), lists (flat/raveled vectors and trajectories)
and functions out of `Fin k` (batched arrays); machine floats are embedded
as `ℚ` so that grid arithmetic is exact.

Python exceptions are embedded with `Except GsError`; mutation of an
integrator instance (the `result_` cache) is embedded by returning the
updated instance alongside the result.
-/

set_option autoImplicit false

/-- Errors surfaced by the solver layer: configuration errors
(`check_parameter_accepted_values`), Python `KeyError` (dict lookup misses),
`ZeroDivisionError` (float division by an integer zero) and `IndexError`
(indexing an empty trajectory). -/
inductive GsError where
  | invalidConfiguration (value : String)
  | keyError (key : String)
  | zeroDivision
  | indexError
  deriving DecidableEq

/-- The stepper contract: `(force, state, time, dt) -> state`. -/
def StepFunction (α : Type) : Type := (α → ℚ → α) → α → ℚ → ℚ → α

/-- Modelled from the spec: `geomstats.integrator.euler_step` is not under
`src/`; the spec gives the rule `state' = state + dt * force(state, t)`. -/
def eulerStep {α : Type} [AddCommGroup α] [Module ℚ α] : StepFunction α :=
  fun force state time dt => state + dt • force state time

/-- Modelled from the spec: a registered higher-order Runge-Kutta variant
(midpoint rule, two vector-field evaluations per step). -/
def rk2Step {α : Type} [AddCommGroup α] [Module ℚ α] : StepFunction α :=
  fun force state time dt =>
    state + dt • force (state + (dt / 2) • force state time) (time + dt / 2)

/-- Modelled from the spec: a registered higher-order Runge-Kutta variant
(classical fourth-order rule, four vector-field evaluations per step). -/
def rk4Step {α : Type} [AddCommGroup α] [Module ℚ α] : StepFunction α :=
  fun force state time dt =>
    let k1 := force state time
    let k2 := force (state + (dt / 2) • k1) (time + dt / 2)
    let k3 := force (state + (dt / 2) • k2) (time + dt / 2)
    let k4 := force (state + dt • k3) (time + dt)
    state + (dt / 6) • (k1 + (2 : ℚ) • k2 + (2 : ℚ) • k3 + k4)

/-- Modelled from the spec: the keys of the stepper registry
`geomstats.integrator.STEP_FUNCTIONS` (not under `src/`): a fixed catalog of
named single-step update rules (explicit Euler and Runge-Kutta variants). -/
def STEP_FUNCTIONS_KEYS : List String := ["euler", "rk2", "rk4"]

/-- Modelled from the spec: lookup of a registered step function by name in
`geomstats.integrator.STEP_FUNCTIONS` (not under `src/`). -/
def stepFunctionFor {α : Type} [AddCommGroup α] [Module ℚ α]
    (s : String) : Option (StepFunction α) :=
  if s = "euler" then some eulerStep
  else if s = "rk2" then some rk2Step
  else if s = "rk4" then some rk4Step
  else none

/-- Modelled from the spec: `geomstats.integrator.FEVALS_PER_STEP` (not under
`src/`) maps each registered stepper name to its number of vector-field
evaluations per step; a custom stepper is recorded with `step_type = None`
and has no entry (evaluation-cost lookup only succeeds for named steppers). -/
def FEVALS_PER_STEP (step_type : Option String) : Option ℕ :=
  match step_type with
  | some "euler" => some 1
  | some "rk2" => some 2
  | some "rk4" => some 4
  | _ => none

/-- Modelled from the spec: `geomstats.errors.check_parameter_accepted_values`
is not under `src/`; configuration fails with an `InvalidConfiguration`
error when a requested name is not among the accepted values. -/
def check_parameter_accepted_values (value : String) (accepted : List String) :
    Except GsError Unit :=
  if value ∈ accepted then Except.ok () else Except.error (.invalidConfiguration value)

/-- The argument of the `step_type` setter: either a registry name (string)
or a custom callable. -/
inductive StepTypeValue (α : Type) where
  | str (s : String)
  | func (f : StepFunction α)

/-- The `GSIntegrator.step_type` setter (solvers.py lines 39-51): a callable
is stored directly with `step_type = None`; a string is validated against the
registry and resolved to its step function.  Returns the
`(_step_type, _step_function)` pair that the setter stores. -/
def stepTypeSet {α : Type} [AddCommGroup α] [Module ℚ α]
    (value : StepTypeValue α) : Except GsError (Option String × StepFunction α) :=
  match value with
  | .func f => Except.ok (none, f)
  | .str s =>
      match check_parameter_accepted_values s STEP_FUNCTIONS_KEYS with
      | .error e => Except.error e
      | .ok _ =>
          match stepFunctionFor (α := α) s with
          | none => Except.error (.keyError s)
          | some f => Except.ok (some s, f)

/-- The result record built by `GSIntegrator.integrate` (solvers.py line 74):
`OdeResult(t=ts, y=gs.array(states), nfev=nfev, njev=0, sucess=True)`.
The last field keeps the source's (misspelled) keyword `sucess`. -/
structure OdeResult (α : Type) where
  t : List ℚ
  y : List α
  nfev : ℕ
  njev : ℕ
  sucess : Bool

/-- `GSIntegrator` instance state: configuration fields set by `__init__`
(including the two fields stored by the `step_type` setter) and the
`result_` cache slot inherited from `ODEIVPSolver`. -/
structure GSIntegrator (α : Type) where
  n_steps : ℕ
  _step_type : Option String
  _step_function : StepFunction α
  save_result : Bool
  result_ : Option (OdeResult α)
  state_is_raveled : Bool
  tfirst : Bool

/-- `GSIntegrator.__init__(n_steps, step_type, save_result)`: runs the
`step_type` setter (which may raise), sets `state_is_raveled=False`,
`tfirst=False` and `result_ = None` (solvers.py lines 16-33). -/
def GSIntegrator.init {α : Type} [AddCommGroup α] [Module ℚ α]
    (n_steps : ℕ) (step_type : StepTypeValue α) (save_result : Bool) :
    Except GsError (GSIntegrator α) :=
  match stepTypeSet step_type with
  | .error e => Except.error e
  | .ok st => Except.ok ⟨n_steps, st.1, st.2, save_result, none, false, false⟩

/-- `GSIntegrator()` with the Python default arguments
`n_steps=10, step_type="euler", save_result=False`. -/
def GSIntegrator.initDefault {α : Type} [AddCommGroup α] [Module ℚ α] :
    Except GsError (GSIntegrator α) :=
  GSIntegrator.init 10 (.str "euler") false

/-- `GSIntegrator.step` (solvers.py lines 53-54). -/
def GSIntegrator.step {α : Type} (itg : GSIntegrator α)
    (force : α → ℚ → α) (state : α) (time dt : ℚ) : α :=
  itg._step_function force state time dt

/-- `GSIntegrator._get_n_fevals` (solvers.py lines 56-58):
`FEVALS_PER_STEP[self.step_type] * n_steps`; the dict lookup raises
`KeyError` when `step_type` has no entry (in particular for a custom
stepper, whose `step_type` is `None`). -/
def GSIntegrator.get_n_fevals {α : Type} (itg : GSIntegrator α) (n_steps : ℕ) :
    Except GsError ℕ :=
  match FEVALS_PER_STEP itg._step_type with
  | none => Except.error (.keyError "None")
  | some c => Except.ok (c * n_steps)

/-- The `for i in range(n_steps)` loop of `GSIntegrator.integrate`
(solvers.py lines 65-69): the list of states appended after the initial one,
stepping from `state` with vector-field time `i * dt` at loop index `i`. -/
def integrateLoop {α : Type} (itg : GSIntegrator α) (force : α → ℚ → α)
    (dt : ℚ) (state : α) (i : ℕ) : ℕ → List α
  | 0 => []
  | Nat.succ m =>
      let s := itg.step force state ((i : ℚ) * dt) dt
      s :: integrateLoop itg force dt s (i + 1) m

/-- `gs.linspace(start, stop, num)`: `num` evenly spaced samples from
`start` to `stop` inclusive (exact over `ℚ`). -/
def linspace (start stop : ℚ) (num : ℕ) : List ℚ :=
  (List.range num).map fun (i : ℕ) => start + (i : ℚ) * ((stop - start) / ((num : ℚ) - 1))

/-- `GSIntegrator.integrate` (solvers.py lines 60-79).  `dt = end_time /
n_steps` raises `ZeroDivisionError` when `n_steps = 0`; the evaluation-count
lookup may raise `KeyError`; on success the result is cached on the returned
instance iff `save_result` holds. -/
def GSIntegrator.integrate {α : Type} (itg : GSIntegrator α)
    (force : α → ℚ → α) (initial_state : α) (end_time : ℚ) :
    Except GsError (OdeResult α × GSIntegrator α) :=
  if itg.n_steps = 0 then Except.error .zeroDivision
  else
    let dt := end_time / (itg.n_steps : ℚ)
    let states : List α := initial_state :: integrateLoop itg force dt initial_state 0 itg.n_steps
    let ts := linspace 0 end_time (itg.n_steps + 1)
    match itg.get_n_fevals itg.n_steps with
    | .error e => Except.error e
    | .ok nfev =>
        let result : OdeResult α := ⟨ts, states, nfev, 0, true⟩
        Except.ok (result, if itg.save_result then { itg with result_ := some result } else itg)

/-- The raw result object returned by `scipy.integrate.solve_ivp` (external
library boundary): time points, the state array with shape
`(n_components, n_time_points)` — state components as rows, time as the
second axis — evaluation counts and the success flag. -/
structure SCPOdeResult where
  t : List ℚ
  y : List (List ℚ)
  nfev : ℕ
  njev : ℕ
  success : Bool

/-- The external adaptive solver consumed by `SCPSolveIVP.integrate`
(`scipy.integrate.solve_ivp`), taken as an opaque collaborator: it receives a
time-first vector field, the `(0, end_time)` interval, the flat initial
vector, the method name and the option overrides. -/
def ExternalIVPSolver : Type :=
  (ℚ → List ℚ → List ℚ) → ℚ × ℚ → List ℚ → String → List (String × ℚ) → SCPOdeResult

/-- `SCPSolveIVP` instance state (solvers.py lines 82-89): method name,
free-form options, the `result_` cache and the layout flags
`state_is_raveled=True`, `tfirst=True` set by `__init__`. -/
structure SCPSolveIVP where
  method : String
  options : List (String × ℚ)
  save_result : Bool
  result_ : Option SCPOdeResult
  state_is_raveled : Bool
  tfirst : Bool

/-- `SCPSolveIVP.__init__(method, save_result, **options)`. -/
def SCPSolveIVP.init (method : String) (save_result : Bool)
    (options : List (String × ℚ)) : SCPSolveIVP :=
  ⟨method, options, save_result, none, true, true⟩

/-- `SCPSolveIVP()` with the Python default arguments
`method="RK45", save_result=False` and no options. -/
def SCPSolveIVP.initDefault : SCPSolveIVP :=
  SCPSolveIVP.init "RK45" false []

/-- `gs.flatten` on a structured `[position, velocity]` stack: the
concatenation of the two components. -/
def gsFlatten (state : List ℚ × List ℚ) : List ℚ :=
  state.1 ++ state.2

/-- `gs.moveaxis(y, 0, -1)` on the 2-D `(n_components, n_time_points)` array
produced by the external solver: the transpose, whose row `t` collects the
`t`-th entry of every component row. -/
def moveaxisZeroToLast (y : List (List ℚ)) : List (List ℚ) :=
  (List.range (y.headD []).length).map fun t => y.map fun row => row.getD t 0

/-- `SCPSolveIVP.integrate` (solvers.py lines 91-113): flattens the
structured initial state, delegates to the external solver over
`(0, end_time)`, converts the result to the backend type (the identity on
the default numpy backend), moves the state-component axis of `y` to the
last position, and caches the result iff `save_result` holds. -/
def SCPSolveIVP.integrate (scp : SCPSolveIVP) (solve_ivp : ExternalIVPSolver)
    (force : ℚ → List ℚ → List ℚ) (initial_state : List ℚ × List ℚ)
    (end_time : ℚ) : SCPOdeResult × SCPSolveIVP :=
  let raveled_initial_state := gsFlatten initial_state
  let raw := solve_ivp (fun t state => force t state) (0, end_time)
      raveled_initial_state scp.method scp.options
  let result := { raw with y := moveaxisZeroToLast raw.y }
  (result, if scp.save_result then { scp with result_ := some result } else scp)

/-- The metric collaborator consumed by `ExpODESolver`: an ambient dimension
and the geodesic equation as a first-order system on structured
`[position, velocity]` states. -/
structure Metric (V : Type) where
  dim : ℕ
  geodesic_equation : V × V → ℚ → V × V

/-- `ExpODESolver._force_unraveled_state` composed with `_get_force` for a
`GSIntegrator` backend (`state_is_raveled=False`, `tfirst=False`): the
structured state is passed through to the geodesic equation unchanged. -/
def getForceUnraveled {V : Type} (metric : Metric V) : (V × V) → ℚ → (V × V) :=
  fun state t => metric.geodesic_equation state t

/-- `ExpODESolver._force_raveled_state` composed with `_get_force` for the
`SCPSolveIVP` backend (`state_is_raveled=True`, `tfirst=True`): un-ravel the
flat vector into `position = state[:dim]`, `velocity = state[dim:]`, restack,
evaluate the geodesic equation and flatten the result; the argument order is
swapped to the time-first convention. -/
def getForceRaveled (metric : Metric (List ℚ)) : ℚ → List ℚ → List ℚ :=
  fun t state =>
    let position := state.take metric.dim
    let velocity := state.drop metric.dim
    let eq := metric.geodesic_equation (position, velocity) t
    gsFlatten eq

/-- `ExpODESolver.solve` with a `GSIntegrator` backend (solvers.py lines
146-154), for a base point of the same shape as the tangent vector (so
`gs.broadcast_to` is the identity): stack the initial state, integrate the
geodesic force over the unit time horizon, and extract the position
component (`y[0]`) of the last time-point's state (`result.y[-1]`). -/
def expSolveGS {V : Type} (itg : GSIntegrator (V × V)) (metric : Metric V)
    (tangent_vec base_point : V) : Except GsError V :=
  let initial_state := (base_point, tangent_vec)
  match itg.integrate (getForceUnraveled metric) initial_state 1 with
  | .error e => Except.error e
  | .ok p =>
      match p.1.y.getLast? with
      | none => Except.error .indexError
      | some y => Except.ok y.1

/-- `ExpODESolver.solve` with a `GSIntegrator` backend for the one-to-many
batched case: a single base point and `k` tangent vectors;
`gs.broadcast_to(base_point, tangent_vec.shape)` replicates the base point
across the batch axis, and the rest of the pipeline is unchanged. -/
def expSolveGSBatch {V : Type} (k : ℕ)
    (itg : GSIntegrator ((Fin k → V) × (Fin k → V)))
    (metric : Metric (Fin k → V)) (tangent_vec : Fin k → V) (base_point : V) :
    Except GsError (Fin k → V) :=
  let base_point_b : Fin k → V := fun _ => base_point
  match itg.integrate (getForceUnraveled metric) (base_point_b, tangent_vec) 1 with
  | .error e => Except.error e
  | .ok p =>
      match p.1.y.getLast? with
      | none => Except.error .indexError
      | some y => Except.ok y.1

/-- `ExpODESolver.solve` with the `SCPSolveIVP` backend (solvers.py lines
146-154), for a base point of the same shape as the tangent vector: stack the
initial state, integrate the raveled time-first geodesic force over the unit
time horizon, and extract the first `metric.dim` entries (`y[:metric.dim]`)
of the last time-point's state. -/
def expSolveSCP (scp : SCPSolveIVP) (solve_ivp : ExternalIVPSolver)
    (metric : Metric (List ℚ)) (tangent_vec base_point : List ℚ) :
    Except GsError (List ℚ) :=
  let initial_state := (base_point, tangent_vec)
  let result := (scp.integrate solve_ivp (getForceRaveled metric) initial_state 1).1
  match result.y.getLast? with
  | none => Except.error .indexError
  | some y => Except.ok (y.take metric.dim)

/-- An integrator whose stepper is one of the registered named steppers, with
the step function the registry resolves for that name. -/
def GSIntegrator.validNamed {α : Type} [AddCommGroup α] [Module ℚ α]
    (itg : GSIntegrator α) : Prop :=
  (itg._step_type = some "euler" ∧ itg._step_function = eulerStep)
  ∨ (itg._step_type = some "rk2" ∧ itg._step_function = rk2Step)
  ∨ (itg._step_type = some "rk4" ∧ itg._step_function = rk4Step)

lemma linspace_length (start stop : ℚ) (num : ℕ) : (linspace start stop num).length = num := by
  rw [linspace, List.length_map, List.length_range]

lemma linspace_getD (start stop : ℚ) (num i : ℕ) (hi : i < num) :
    (linspace start stop num).getD i 0 = start + (i : ℚ) * ((stop - start) / ((num : ℚ) - 1)) := by
  rw [linspace, List.getD_eq_getElem?_getD, List.getElem?_map, List.getElem?_range hi]
  rfl

lemma integrateLoop_length {α : Type} (itg : GSIntegrator α) (force : α → ℚ → α)
    (dt : ℚ) (state : α) (i n : ℕ) :
    (integrateLoop itg force dt state i n).length = n := by
  induction n generalizing state i with
  | zero => rfl
  | succ m ih => simp [integrateLoop, ih]

lemma eulerStep_fixed {α : Type} [AddCommGroup α] [Module ℚ α]
    (force : α → ℚ → α) (s : α) (hF : ∀ t, force s t = 0) (t dt : ℚ) :
    eulerStep force s t dt = s := by
  simp [eulerStep, hF]

lemma rk2Step_fixed {α : Type} [AddCommGroup α] [Module ℚ α]
    (force : α → ℚ → α) (s : α) (hF : ∀ t, force s t = 0) (t dt : ℚ) :
    rk2Step force s t dt = s := by
  simp [rk2Step, hF]

lemma rk4Step_fixed {α : Type} [AddCommGroup α] [Module ℚ α]
    (force : α → ℚ → α) (s : α) (hF : ∀ t, force s t = 0) (t dt : ℚ) :
    rk4Step force s t dt = s := by
  simp [rk4Step, hF]

/-- A state on which the vector field vanishes at every time is a fixed point
of every registered stepper. -/
lemma validNamed_step_fixed {α : Type} [AddCommGroup α] [Module ℚ α]
    (itg : GSIntegrator α) (hval : itg.validNamed)
    (force : α → ℚ → α) (s : α) (hF : ∀ t, force s t = 0) (t dt : ℚ) :
    itg.step force s t dt = s := by
  rcases hval with ⟨_, h⟩ | ⟨_, h⟩ | ⟨_, h⟩ <;> rw [GSIntegrator.step, h]
  · exact eulerStep_fixed force s hF t dt
  · exact rk2Step_fixed force s hF t dt
  · exact rk4Step_fixed force s hF t dt

lemma integrateLoop_fixed {α : Type} [AddCommGroup α] [Module ℚ α]
    (itg : GSIntegrator α) (hval : itg.validNamed)
    (force : α → ℚ → α) (dt : ℚ) (s : α) (hF : ∀ t, force s t = 0) (i n : ℕ) :
    integrateLoop itg force dt s i n = List.replicate n s := by
  induction n generalizing i with
  | zero => rfl
  | succ m ih =>
      rw [integrateLoop, List.replicate_succ]
      rw [validNamed_step_fixed itg hval force s hF _ _]
      exact congrArg _ (ih (i + 1))

lemma validNamed_fevals {α : Type} [AddCommGroup α] [Module ℚ α]
    (itg : GSIntegrator α) (hval : itg.validNamed) :
    ∃ c : ℕ, FEVALS_PER_STEP itg._step_type = some c := by
  rcases hval with ⟨h, _⟩ | ⟨h, _⟩ | ⟨h, _⟩ <;> rw [h] <;> exact ⟨_, rfl⟩

/-- The result record that a successful run of `GSIntegrator.integrate`
builds, with `c` evaluations per step. -/
def gsResult {α : Type} (itg : GSIntegrator α) (force : α → ℚ → α)
    (s0 : α) (T : ℚ) (c : ℕ) : OdeResult α :=
  ⟨linspace 0 T (itg.n_steps + 1),
   s0 :: integrateLoop itg force (T / (itg.n_steps : ℚ)) s0 0 itg.n_steps,
   c * itg.n_steps, 0, true⟩

/-- When `n_steps` is positive and the evaluation-count lookup succeeds,
`GSIntegrator.integrate` returns that result. -/
lemma integrate_eq_ok {α : Type} (itg : GSIntegrator α)
    (force : α → ℚ → α) (s0 : α) (T : ℚ) (c : ℕ)
    (hn : itg.n_steps ≠ 0) (hc : FEVALS_PER_STEP itg._step_type = some c) :
    itg.integrate force s0 T =
      Except.ok
        (gsResult itg force s0 T c,
         if itg.save_result then { itg with result_ := some (gsResult itg force s0 T c) }
         else itg) := by
  rw [GSIntegrator.integrate, if_neg hn]
  show (match itg.get_n_fevals itg.n_steps with
    | .error e => Except.error e
    | .ok nfev => _) = _
  rw [GSIntegrator.get_n_fevals, hc]
  rfl

/-- A concrete fixed-step integrator: 2 Euler steps, `save_result=False`. -/
def itgEuler2 : GSIntegrator ℚ := ⟨2, some "euler", eulerStep, false, none, false, false⟩

/-- A custom stepper (any callable with the stepper contract). -/
def customStep : StepFunction ℚ := fun _ state _ _ => state

/-- The integrator obtained by configuring `itgEuler2`'s shape with the
custom callable `customStep`: the setter stores `step_type = None`. -/
def itgCustom : GSIntegrator ℚ := ⟨2, none, customStep, false, none, false, false⟩

/-- Claim C4: for every force, initial state and end time, and every
validly-named fixed-step integrator with positive `n_steps`,
`GSIntegrator.integrate` returns a Result whose time sequence has exactly
`n_steps + 1` uniformly spaced points starting at `0` and ending at
`end_time`, and whose state sequence has `n_steps + 1` entries with time as
the outermost (list) axis and first entry the initial state. -/
theorem fixed_step_grid (α : Type) [AddCommGroup α] [Module ℚ α]
    (itg : GSIntegrator α) (force : α → ℚ → α) (s0 : α) (T : ℚ)
    (hval : itg.validNamed) (hn : 0 < itg.n_steps) :
    (itg.integrate force s0 T).map (fun p => p.1.t.length) = Except.ok (itg.n_steps + 1)
    ∧ (itg.integrate force s0 T).map (fun p => p.1.t.getD 0 0) = Except.ok 0
    ∧ (itg.integrate force s0 T).map (fun p => p.1.t.getD itg.n_steps 0) = Except.ok T
    ∧ (∀ i, i < itg.n_steps →
        (itg.integrate force s0 T).map
          (fun p => p.1.t.getD (i + 1) 0 - p.1.t.getD i 0) =
          Except.ok (T / (itg.n_steps : ℚ)))
    ∧ (itg.integrate force s0 T).map (fun p => p.1.y.length) = Except.ok (itg.n_steps + 1)
    ∧ (itg.integrate force s0 T).map (fun p => p.1.y.head?) = Except.ok (some s0) := by
  obtain ⟨c, hc⟩ := validNamed_fevals itg hval
  have hn' : itg.n_steps ≠ 0 := Nat.pos_iff_ne_zero.mp hn
  have hnq : ((itg.n_steps : ℚ)) ≠ 0 := Nat.cast_ne_zero.mpr hn'
  rw [integrate_eq_ok itg force s0 T c hn' hc]
  refine ⟨?_, ?_, ?_, ?_, ?_, ?_⟩
  · simp [Except.map, gsResult, linspace_length]
  · simp only [Except.map, gsResult]
    rw [linspace_getD _ _ _ 0 (Nat.succ_pos _)]
    norm_num
  · simp only [Except.map, gsResult]
    rw [linspace_getD _ _ _ itg.n_steps (Nat.lt_succ_self _)]
    push_cast
    field_simp
  · intro i hi
    simp only [Except.map, gsResult]
    rw [linspace_getD _ _ _ (i + 1) (by omega), linspace_getD _ _ _ i (by omega)]
    push_cast
    ring_nf
  · simp [Except.map, gsResult, integrateLoop_length]
  · simp [Except.map, gsResult]

/-- Witness for claim C4: the grid facts at a concrete integrator
(2 Euler steps), concrete force and end time. -/
theorem fixed_step_grid_witness :
    (itgEuler2.validNamed ∧ 0 < itgEuler2.n_steps)
    ∧ ((itgEuler2.integrate (fun s _ => s) 3 5).map (fun p => p.1.t.length) = Except.ok 3
    ∧ (itgEuler2.integrate (fun s _ => s) 3 5).map (fun p => p.1.t.getD 0 0) = Except.ok 0
    ∧ (itgEuler2.integrate (fun s _ => s) 3 5).map (fun p => p.1.t.getD itgEuler2.n_steps 0) = Except.ok 5
    ∧ (∀ i, i < itgEuler2.n_steps →
        (itgEuler2.integrate (fun s _ => s) 3 5).map
          (fun p => p.1.t.getD (i + 1) 0 - p.1.t.getD i 0) =
          Except.ok (5 / (itgEuler2.n_steps : ℚ)))
    ∧ (itgEuler2.integrate (fun s _ => s) 3 5).map (fun p => p.1.y.length) = Except.ok 3
    ∧ (itgEuler2.integrate (fun s _ => s) 3 5).map (fun p => p.1.y.head?) = Except.ok (some 3)) :=
  ⟨⟨Or.inl ⟨rfl, rfl⟩, by decide⟩,
   fixed_step_grid ℚ itgEuler2 (fun s _ => s) 3 5 (Or.inl ⟨rfl, rfl⟩) (by decide)⟩

/-- Claim C5 (evaluated at the failing input): the Result of the concrete
fixed-step integration carries `njev = 0` and carries its success flag under
the source's misspelled keyword `sucess`, set to `True`; the record exposes
no correctly-spelled `success` attribute. -/
theorem fixed_step_result_njev_sucess :
    (itgEuler2.integrate (fun _ _ => (0 : ℚ)) 0 1).map
      (fun p => (p.1.njev, p.1.sucess)) = Except.ok (0, true) := rfl

/-- Claim C9: for every validly-named stepper, every initial state, every
positive `n_steps` and every end time, integrating the identically-zero
vector field returns a trajectory in which every state equals the initial
state. -/
theorem zero_force_trajectory_constant (α : Type) [AddCommGroup α] [Module ℚ α]
    (itg : GSIntegrator α) (s0 : α) (T : ℚ)
    (hval : itg.validNamed) (hn : 0 < itg.n_steps) :
    (itg.integrate (fun _ _ => (0 : α)) s0 T).map (fun p => p.1.y) =
      Except.ok (List.replicate (itg.n_steps + 1) s0) := by
  obtain ⟨c, hc⟩ := validNamed_fevals itg hval
  rw [integrate_eq_ok itg _ s0 T c (Nat.pos_iff_ne_zero.mp hn) hc]
  simp only [Except.map, gsResult]
  rw [integrateLoop_fixed itg hval _ _ s0 (fun _ => rfl)]
  rw [List.replicate_succ]

/-- Witness for claim C9: a concrete zero-force integration with the rk4
stepper keeps the initial state at every grid point. -/
theorem zero_force_trajectory_constant_witness :
    ((⟨3, some "rk4", rk4Step, false, none, false, false⟩ : GSIntegrator ℚ).validNamed
      ∧ 0 < (⟨3, some "rk4", rk4Step, false, none, false, false⟩ : GSIntegrator ℚ).n_steps)
    ∧ ((⟨3, some "rk4", rk4Step, false, none, false, false⟩ : GSIntegrator ℚ).integrate
        (fun _ _ => (0 : ℚ)) 7 2).map (fun p => p.1.y) = Except.ok (List.replicate 4 7) :=
  ⟨⟨Or.inr (Or.inr ⟨rfl, rfl⟩), by decide⟩,
   zero_force_trajectory_constant ℚ _ 7 2 (Or.inr (Or.inr ⟨rfl, rfl⟩)) (by decide)⟩

/-- Claim C2 (amended): when the stepper is a custom callable
(`step_type = None`), a call to `integrate` does not return normally: the
evaluation-count lookup `FEVALS_PER_STEP[None]` raises `KeyError`. -/
theorem custom_stepper_integrate_errors (α : Type) (itg : GSIntegrator α)
    (force : α → ℚ → α) (s0 : α) (T : ℚ)
    (hcustom : itg._step_type = none) (hn : 0 < itg.n_steps) :
    itg.integrate force s0 T = Except.error (GsError.keyError "None") := by
  rw [GSIntegrator.integrate, if_neg (Nat.pos_iff_ne_zero.mp hn)]
  show (match itg.get_n_fevals itg.n_steps with
    | .error e => Except.error e
    | .ok nfev => _) = _
  rw [GSIntegrator.get_n_fevals, hcustom]
  rfl

/-- Counterexample for claim C2 as stated: configuring the integrator with a
custom callable succeeds (storing `step_type = None`), but the subsequent
call to `integrate` raises `KeyError` instead of returning normally with a
zero evaluation count. -/
theorem custom_stepper_integrate_errors_cex :
    GSIntegrator.init 2 (StepTypeValue.func customStep) false = Except.ok itgCustom
    ∧ itgCustom.integrate (fun _ _ => (0 : ℚ)) 0 1 = Except.error (GsError.keyError "None") :=
  ⟨rfl, rfl⟩

/-- Witness for the amended claim C2 at a concrete custom-stepper
integrator and concrete inputs. -/
theorem custom_stepper_integrate_errors_witness :
    (itgCustom._step_type = none ∧ 0 < itgCustom.n_steps)
    ∧ itgCustom.integrate (fun s _ => s) 1 2 = Except.error (GsError.keyError "None") :=
  ⟨⟨rfl, by decide⟩,
   custom_stepper_integrate_errors ℚ itgCustom (fun s _ => s) 1 2 rfl (by decide)⟩

/-- Claim C6: constructing a `GSIntegrator` with, or assigning to its
`step_type`, a string that is not a registered stepper name raises the
configuration error at that moment, at the setter itself — before any
integration is attempted. -/
theorem invalid_step_type_raises (α : Type) [AddCommGroup α] [Module ℚ α]
    (s : String) (hs : s ∉ STEP_FUNCTIONS_KEYS) :
    stepTypeSet (α := α) (StepTypeValue.str s) = Except.error (GsError.invalidConfiguration s)
    ∧ ∀ (n : ℕ) (sv : Bool),
        GSIntegrator.init (α := α) n (StepTypeValue.str s) sv =
          Except.error (GsError.invalidConfiguration s) := by
  have h1 : stepTypeSet (α := α) (StepTypeValue.str s) =
      Except.error (GsError.invalidConfiguration s) := by
    simp only [stepTypeSet, check_parameter_accepted_values, if_neg hs]
  exact ⟨h1, fun n sv => by rw [GSIntegrator.init, h1]⟩

/-- Witness for claim C6: the unregistered name `"foo"` is rejected by the
setter and by the constructor. -/
theorem invalid_step_type_raises_witness :
    ("foo" ∉ STEP_FUNCTIONS_KEYS)
    ∧ stepTypeSet (α := ℚ) (StepTypeValue.str "foo") =
        Except.error (GsError.invalidConfiguration "foo")
    ∧ GSIntegrator.init (α := ℚ) 5 (StepTypeValue.str "foo") true =
        Except.error (GsError.invalidConfiguration "foo") :=
  ⟨by decide,
   (invalid_step_type_raises ℚ "foo" (by decide)).1,
   (invalid_step_type_raises ℚ "foo" (by decide)).2 5 true⟩

/-- A stub external adaptive solver returning a fixed raw result whose state
array `y` has one component row and two time columns (time as second axis). -/
def stubSolver : ExternalIVPSolver := fun _ _ _ _ _ => ⟨[0, 1], [[1, 2]], 2, 0, true⟩

/-- Claim C10: both integrators default to `save_result = False`, the cached
`result_` slot is `None` at construction, and with `save_result = False` a
call to `integrate` leaves the instance (all configuration attributes and the
cache) unchanged. -/
theorem integrators_save_result_frame (α : Type) [AddCommGroup α] [Module ℚ α] :
    ((GSIntegrator.initDefault (α := α)).map (fun itg => itg.save_result) = Except.ok false)
    ∧ ((GSIntegrator.initDefault (α := α)).map (fun itg => itg.result_) = Except.ok none)
    ∧ (∀ (n : ℕ) (st : StepTypeValue α) (sv : Bool) (itg : GSIntegrator α),
        GSIntegrator.init n st sv = Except.ok itg → itg.result_ = none)
    ∧ (∀ (itg : GSIntegrator α) (force : α → ℚ → α) (s0 : α) (T : ℚ)
        (r : OdeResult α) (itg2 : GSIntegrator α),
        itg.save_result = false → itg.integrate force s0 T = Except.ok (r, itg2) → itg2 = itg)
    ∧ (SCPSolveIVP.initDefault.save_result = false ∧ SCPSolveIVP.initDefault.result_ = none)
    ∧ (∀ (m : String) (sv : Bool) (opts : List (String × ℚ)),
        (SCPSolveIVP.init m sv opts).result_ = none)
    ∧ (∀ (scp : SCPSolveIVP) (solver : ExternalIVPSolver)
        (force : ℚ → List ℚ → List ℚ) (ini : List ℚ × List ℚ) (T : ℚ),
        scp.save_result = false → (scp.integrate solver force ini T).2 = scp) := by
  refine ⟨rfl, rfl, ?_, ?_, ⟨rfl, rfl⟩, fun m sv opts => rfl, ?_⟩
  · intro n st sv itg h
    rw [GSIntegrator.init] at h
    cases hset : stepTypeSet (α := α) st with
    | error e => rw [hset] at h; cases h
    | ok p =>
        rw [hset] at h
        cases h
        rfl
  · intro itg force s0 T r itg2 hsave h
    by_cases h0 : itg.n_steps = 0
    · rw [GSIntegrator.integrate, if_pos h0] at h
      cases h
    · cases hfe : FEVALS_PER_STEP itg._step_type with
      | none =>
          simp only [GSIntegrator.integrate, if_neg h0, GSIntegrator.get_n_fevals, hfe] at h
          cases h
      | some c =>
          rw [integrate_eq_ok itg force s0 T c h0 hfe, hsave] at h
          simp only [Bool.false_eq_true, if_false, Except.ok.injEq, Prod.mk.injEq] at h
          exact h.2.symm
  · intro scp solver force ini T hsave
    simp [SCPSolveIVP.integrate, hsave]

/-- Witness for claim C10: concrete constructions land with an empty cache
and the default `save_result = False`; concrete `integrate` calls with
`save_result = False` return the instance unchanged. -/
theorem integrators_save_result_frame_witness :
    (GSIntegrator.init 3 (StepTypeValue.str "rk2") true =
        Except.ok (⟨3, some "rk2", rk2Step, true, none, false, false⟩ : GSIntegrator ℚ))
    ∧ ((⟨3, some "rk2", rk2Step, true, none, false, false⟩ : GSIntegrator ℚ).result_ = none)
    ∧ (itgEuler2.save_result = false)
    ∧ (itgEuler2.integrate (fun _ _ => (0 : ℚ)) 0 1 =
        Except.ok (gsResult itgEuler2 (fun _ _ => (0 : ℚ)) 0 1 1, itgEuler2))
    ∧ (itgEuler2 = itgEuler2)
    ∧ (SCPSolveIVP.initDefault.save_result = false)
    ∧ ((SCPSolveIVP.initDefault.integrate stubSolver (fun _ s => s) ([0], [1]) 1).2 =
        SCPSolveIVP.initDefault) := by
  refine ⟨rfl, ?_, rfl, ?_, ?_, rfl, ?_⟩
  · exact (integrators_save_result_frame ℚ).2.2.1 3 (StepTypeValue.str "rk2") true _ rfl
  · rw [integrate_eq_ok itgEuler2 (fun _ _ => (0 : ℚ)) 0 1 1 (by decide) rfl]
    rfl
  · exact (integrators_save_result_frame ℚ).2.2.2.1 itgEuler2 (fun _ _ => (0 : ℚ)) 0 1
      (gsResult itgEuler2 (fun _ _ => (0 : ℚ)) 0 1 1) itgEuler2 rfl
      (by rw [integrate_eq_ok itgEuler2 (fun _ _ => (0 : ℚ)) 0 1 1 (by decide) rfl]; rfl)
  · exact (integrators_save_result_frame ℚ).2.2.2.2.2.2 SCPSolveIVP.initDefault stubSolver
      (fun _ s => s) ([0], [1]) 1 rfl

lemma moveaxis_length (y : List (List ℚ)) :
    (moveaxisZeroToLast y).length = (y.headD []).length := by
  rw [moveaxisZeroToLast, List.length_map, List.length_range]

lemma moveaxis_getD (y : List (List ℚ)) (t c : ℕ) (ht : t < (y.headD []).length) :
    ((moveaxisZeroToLast y).getD t []).getD c 0 = (y.getD c []).getD t 0 := by
  have h1 : (moveaxisZeroToLast y).getD t [] = y.map (fun row => row.getD t 0) := by
    rw [moveaxisZeroToLast, List.getD_eq_getElem?_getD, List.getElem?_map, List.getElem?_range ht]
    rfl
  rw [h1]
  cases hyc : y[c]? with
  | none => simp [List.getD_eq_getElem?_getD, List.getElem?_map, hyc]
  | some row => simp [List.getD_eq_getElem?_getD, List.getElem?_map, hyc]

/-- Claim C3 (amended): `SCPSolveIVP.integrate` returns the external
solver's raw state array with the state-component axis moved to the last
position, i.e. transposed so that the TIME axis becomes the FIRST
(outermost) axis: the result has one row per time point, and entry
`[t][c]` of the result is entry `[c][t]` of the raw array. -/
theorem scp_integrate_time_axis_outermost (scp : SCPSolveIVP)
    (solver : ExternalIVPSolver) (force : ℚ → List ℚ → List ℚ)
    (ini : List ℚ × List ℚ) (et : ℚ) :
    ((scp.integrate solver force ini et).1).y.length =
      ((solver force (0, et) (gsFlatten ini) scp.method scp.options).y.headD []).length
    ∧ ∀ (t c : ℕ),
        t < ((solver force (0, et) (gsFlatten ini) scp.method scp.options).y.headD []).length →
        (((scp.integrate solver force ini et).1).y.getD t []).getD c 0 =
          ((solver force (0, et) (gsFlatten ini) scp.method scp.options).y.getD c []).getD t 0 := by
  constructor
  · exact moveaxis_length _
  · intro t c ht
    exact moveaxis_getD _ t c ht

/-- Counterexample for claim C3 as stated: the external solver's raw state
array is `[[1, 2]]` (one component row, time as the second axis); were the
time axis kept/made the last axis the returned array would again be
`[[1, 2]]`, but the adapter returns the transpose `[[1], [2]]` (time as the
first axis). -/
theorem scp_time_axis_cex :
    ((SCPSolveIVP.initDefault.integrate stubSolver (fun _ s => s) ([0], [1]) 1).1).y = [[1], [2]]
    ∧ (stubSolver (fun _ s => s) (0, 1) (gsFlatten ([0], [1]))
        SCPSolveIVP.initDefault.method SCPSolveIVP.initDefault.options).y = [[1, 2]]
    ∧ ([[1], [2]] : List (List ℚ)) ≠ [[1, 2]] :=
  ⟨rfl, rfl, by decide⟩

/-- Witness for the amended claim C3 at a concrete adapter, external solver
and inputs, with concrete axis indices. -/
theorem scp_integrate_time_axis_outermost_witness :
    (1 < ((stubSolver (fun _ s => s) (0, 1) (gsFlatten ([0], [1]))
        SCPSolveIVP.initDefault.method SCPSolveIVP.initDefault.options).y.headD []).length)
    ∧ (((SCPSolveIVP.initDefault.integrate stubSolver (fun _ s => s) ([0], [1]) 1).1).y.getD 1 []).getD 0 0 =
        ((stubSolver (fun _ s => s) (0, 1) (gsFlatten ([0], [1]))
          SCPSolveIVP.initDefault.method SCPSolveIVP.initDefault.options).y.getD 0 []).getD 1 0 :=
  ⟨by decide,
   (scp_integrate_time_axis_outermost SCPSolveIVP.initDefault stubSolver
     (fun _ s => s) ([0], [1]) 1).2 1 0 (by decide)⟩

/-- Claim C1: `ExpODESolver.solve` delegates to the wrapped integrator's
`integrate` with the structured initial state `stack([base_point broadcast
to tangent_vec's shape, tangent_vec])` and `end_time = 1.0`, and returns
the position component of the last time-point's state: the first
`metric.dim` entries when the integrator's state is raveled
(`SCPSolveIVP`), the first stacked component when it is structured
(`GSIntegrator`). -/
theorem exp_solve_delegates_to_integrator (V : Type) [AddCommGroup V] [Module ℚ V] :
    (∀ (itg : GSIntegrator (V × V)) (metric : Metric V) (tangent_vec base_point : V),
      expSolveGS itg metric tangent_vec base_point =
        match itg.integrate (fun state t => metric.geodesic_equation state t)
            (base_point, tangent_vec) 1 with
        | .error e => Except.error e
        | .ok p =>
            match p.1.y.getLast? with
            | none => Except.error .indexError
            | some ylast => Except.ok ylast.1)
    ∧ (∀ (scp : SCPSolveIVP) (solver : ExternalIVPSolver) (metric : Metric (List ℚ))
        (tangent_vec base_point : List ℚ),
        base_point.length = tangent_vec.length →
        expSolveSCP scp solver metric tangent_vec base_point =
          match ((scp.integrate solver
              (fun t state =>
                gsFlatten (metric.geodesic_equation
                  (state.take metric.dim, state.drop metric.dim) t))
              (base_point, tangent_vec) 1).1).y.getLast? with
          | none => Except.error .indexError
          | some ylast => Except.ok (ylast.take metric.dim)) :=
  ⟨fun _ _ _ _ => rfl, fun _ _ _ _ _ _ => rfl⟩

/-- Witness for claim C1: the delegation equations at a concrete metric,
concrete integrators and concrete points (where the precondition that base
point and tangent vector have the same shape holds). -/
theorem exp_solve_delegates_to_integrator_witness :
    (([ (0:ℚ) ].length = [ (1:ℚ) ].length)
    ∧ expSolveSCP SCPSolveIVP.initDefault stubSolver ⟨1, fun s _ => (s.2, s.1)⟩ [1] [0] =
        match ((SCPSolveIVP.initDefault.integrate stubSolver
            (fun t state =>
              gsFlatten ((⟨1, fun s _ => (s.2, s.1)⟩ : Metric (List ℚ)).geodesic_equation
                (state.take 1, state.drop 1) t))
            ([0], [1]) 1).1).y.getLast? with
        | none => Except.error .indexError
        | some ylast => Except.ok (ylast.take 1)) :=
  ⟨by decide,
   (exp_solve_delegates_to_integrator ℚ).2 SCPSolveIVP.initDefault stubSolver
     ⟨1, fun s _ => (s.2, s.1)⟩ [1] [0] (by decide)⟩

lemma getLast?_cons_replicate {β : Type} (a : β) (n : ℕ) :
    (a :: List.replicate n a).getLast? = some a := by
  induction n with
  | zero => rfl
  | succ m ih => rw [List.replicate_succ, List.getLast?_cons_cons]; exact ih

/-- Claim C7: for every metric (that is, every geodesic equation — one that
vanishes on zero-velocity states) and every base point, `ExpODESolver.solve`
with the zero tangent vector returns the base point unchanged. -/
theorem exp_zero_tangent_returns_base_point (V : Type) [AddCommGroup V] [Module ℚ V]
    (itg : GSIntegrator (V × V)) (metric : Metric V) (base_point : V)
    (hval : itg.validNamed) (hn : 0 < itg.n_steps)
    (hgeo : ∀ (p : V) (t : ℚ), metric.geodesic_equation (p, 0) t = 0) :
    expSolveGS itg metric 0 base_point = Except.ok base_point := by
  obtain ⟨c, hc⟩ := validNamed_fevals itg hval
  have hn' : itg.n_steps ≠ 0 := Nat.pos_iff_ne_zero.mp hn
  have hF : ∀ t, getForceUnraveled metric (base_point, (0 : V)) t = 0 := fun t => hgeo base_point t
  have hloop := integrateLoop_fixed itg hval (getForceUnraveled metric)
    (1 / (itg.n_steps : ℚ)) (base_point, (0 : V)) hF 0 itg.n_steps
  simp only [expSolveGS]
  rw [integrate_eq_ok itg (getForceUnraveled metric) (base_point, 0) 1 c hn' hc]
  simp only [gsResult]
  rw [hloop, getLast?_cons_replicate]

/-- A concrete structured-state integrator (2 Euler steps) for single
points. -/
def itgEulerPair : GSIntegrator (ℚ × ℚ) := ⟨2, some "euler", eulerStep, false, none, false, false⟩

/-- The Euclidean metric on `ℚ` (dimension 1): geodesic acceleration zero. -/
def metricEuclid : Metric ℚ := ⟨1, fun s _ => (s.2, 0)⟩

/-- Witness for claim C7: the zero-length geodesic at the concrete Euclidean
metric and base point `5` stays at `5`. -/
theorem exp_zero_tangent_returns_base_point_witness :
    (itgEulerPair.validNamed ∧ 0 < itgEulerPair.n_steps
      ∧ ∀ (p : ℚ) (t : ℚ), metricEuclid.geodesic_equation (p, 0) t = 0)
    ∧ expSolveGS itgEulerPair metricEuclid 0 5 = Except.ok 5 :=
  ⟨⟨Or.inl ⟨rfl, rfl⟩, by decide, fun _ _ => rfl⟩,
   exp_zero_tangent_returns_base_point ℚ itgEulerPair metricEuclid 5
     (Or.inl ⟨rfl, rfl⟩) (by decide) (fun _ _ => rfl)⟩

lemma getLast?_map {β γ : Type} (f : β → γ) (l : List β) :
    (l.map f).getLast? = l.getLast?.map f := by
  induction l with
  | nil => rfl
  | cons a l ih =>
      cases l with
      | nil => rfl
      | cons b l2 =>
          rw [List.map_cons, List.map_cons, List.getLast?_cons_cons,
            List.getLast?_cons_cons, ← List.map_cons]
          exact ih

lemma eulerStep_map {α β : Type} [AddCommGroup α] [Module ℚ α] [AddCommGroup β] [Module ℚ β]
    (φ : α → β) (hadd : ∀ a b, φ (a + b) = φ a + φ b)
    (hsmul : ∀ (q : ℚ) (a : α), φ (q • a) = q • φ a)
    (F : α → ℚ → α) (G : β → ℚ → β) (hFG : ∀ s t, φ (F s t) = G (φ s) t)
    (s : α) (t dt : ℚ) :
    φ (eulerStep F s t dt) = eulerStep G (φ s) t dt := by
  simp only [eulerStep, hadd, hsmul, hFG]

lemma rk2Step_map {α β : Type} [AddCommGroup α] [Module ℚ α] [AddCommGroup β] [Module ℚ β]
    (φ : α → β) (hadd : ∀ a b, φ (a + b) = φ a + φ b)
    (hsmul : ∀ (q : ℚ) (a : α), φ (q • a) = q • φ a)
    (F : α → ℚ → α) (G : β → ℚ → β) (hFG : ∀ s t, φ (F s t) = G (φ s) t)
    (s : α) (t dt : ℚ) :
    φ (rk2Step F s t dt) = rk2Step G (φ s) t dt := by
  simp only [rk2Step, hadd, hsmul, hFG]

lemma rk4Step_map {α β : Type} [AddCommGroup α] [Module ℚ α] [AddCommGroup β] [Module ℚ β]
    (φ : α → β) (hadd : ∀ a b, φ (a + b) = φ a + φ b)
    (hsmul : ∀ (q : ℚ) (a : α), φ (q • a) = q • φ a)
    (F : α → ℚ → α) (G : β → ℚ → β) (hFG : ∀ s t, φ (F s t) = G (φ s) t)
    (s : α) (t dt : ℚ) :
    φ (rk4Step F s t dt) = rk4Step G (φ s) t dt := by
  simp only [rk4Step, hadd, hsmul, hFG]

lemma integrateLoop_map {α β : Type} (itgA : GSIntegrator α) (itgB : GSIntegrator β)
    (φ : α → β) (F : α → ℚ → α) (G : β → ℚ → β)
    (hstep : ∀ (s : α) (t dt : ℚ), φ (itgA.step F s t dt) = itgB.step G (φ s) t dt)
    (dt : ℚ) (s : α) (i n : ℕ) :
    (integrateLoop itgA F dt s i n).map φ = integrateLoop itgB G dt (φ s) i n := by
  induction n generalizing s i with
  | zero => rfl
  | succ m ih =>
      simp only [integrateLoop, List.map_cons]
      rw [ih _ (i + 1), hstep]

/-- Claim C8: with one base point and a batch of `k` tangent vectors,
`ExpODESolver.solve` broadcasts the base point to the tangent vectors'
shape and the `i`-th returned point equals the result of calling `solve`
individually on `(metric, tangent_vec[i], base_point)` — for a like-
configured integrator and a metric whose geodesic equation vectorizes
componentwise over the batch. -/
theorem exp_solve_batch_broadcast (V : Type) [AddCommGroup V] [Module ℚ V] (k : ℕ)
    (itgB : GSIntegrator ((Fin k → V) × (Fin k → V))) (itgS : GSIntegrator (V × V))
    (metricB : Metric (Fin k → V)) (metricS : Metric V)
    (tangent_vec : Fin k → V) (base_point : V) (i : Fin k)
    (hn : itgB.n_steps = itgS.n_steps)
    (htype : itgB._step_type = itgS._step_type)
    (hstep : (itgB._step_function = eulerStep ∧ itgS._step_function = eulerStep)
      ∨ (itgB._step_function = rk2Step ∧ itgS._step_function = rk2Step)
      ∨ (itgB._step_function = rk4Step ∧ itgS._step_function = rk4Step))
    (hcomp : ∀ (a b : Fin k → V) (t : ℚ),
      metricB.geodesic_equation (a, b) t =
        (fun j => (metricS.geodesic_equation (a j, b j) t).1,
         fun j => (metricS.geodesic_equation (a j, b j) t).2)) :
    Except.map (fun p => p i) (expSolveGSBatch k itgB metricB tangent_vec base_point) =
      expSolveGS itgS metricS (tangent_vec i) base_point := by
  have hφ : ∀ (s : (Fin k → V) × (Fin k → V)) (t : ℚ),
      ((getForceUnraveled metricB s t).1 i, (getForceUnraveled metricB s t).2 i) =
        getForceUnraveled metricS (s.1 i, s.2 i) t := by
    intro s t
    exact congrArg (fun p => (p.1 i, p.2 i)) (hcomp s.1 s.2 t)
  have hstepφ : ∀ (s : (Fin k → V) × (Fin k → V)) (t dt : ℚ),
      (fun p : (Fin k → V) × (Fin k → V) => (p.1 i, p.2 i))
          (itgB.step (getForceUnraveled metricB) s t dt) =
        itgS.step (getForceUnraveled metricS)
          ((fun p : (Fin k → V) × (Fin k → V) => (p.1 i, p.2 i)) s) t dt := by
    intro s t dt
    have hadd : ∀ (a b : (Fin k → V) × (Fin k → V)),
        (fun p : (Fin k → V) × (Fin k → V) => (p.1 i, p.2 i)) (a + b) =
          (fun p : (Fin k → V) × (Fin k → V) => (p.1 i, p.2 i)) a +
          (fun p : (Fin k → V) × (Fin k → V) => (p.1 i, p.2 i)) b := fun a b => rfl
    have hsmul : ∀ (q : ℚ) (a : (Fin k → V) × (Fin k → V)),
        (fun p : (Fin k → V) × (Fin k → V) => (p.1 i, p.2 i)) (q • a) =
          q • (fun p : (Fin k → V) × (Fin k → V) => (p.1 i, p.2 i)) a := fun q a => rfl
    rcases hstep with ⟨hB, hS⟩ | ⟨hB, hS⟩ | ⟨hB, hS⟩ <;> simp only [GSIntegrator.step, hB, hS]
    · exact eulerStep_map (fun p => (p.1 i, p.2 i)) hadd hsmul
        (getForceUnraveled metricB) (getForceUnraveled metricS) hφ s t dt
    · exact rk2Step_map (fun p => (p.1 i, p.2 i)) hadd hsmul
        (getForceUnraveled metricB) (getForceUnraveled metricS) hφ s t dt
    · exact rk4Step_map (fun p => (p.1 i, p.2 i)) hadd hsmul
        (getForceUnraveled metricB) (getForceUnraveled metricS) hφ s t dt
  by_cases h0 : itgB.n_steps = 0
  · have h0S : itgS.n_steps = 0 := hn ▸ h0
    simp only [expSolveGSBatch, expSolveGS, GSIntegrator.integrate, if_pos h0, if_pos h0S]
    rfl
  · have h0S : itgS.n_steps ≠ 0 := fun h => h0 (hn.trans h)
    cases hfe : FEVALS_PER_STEP itgB._step_type with
    | none =>
        have hfeS : FEVALS_PER_STEP itgS._step_type = none := htype ▸ hfe
        simp only [expSolveGSBatch, expSolveGS, GSIntegrator.integrate, if_neg h0, if_neg h0S,
          GSIntegrator.get_n_fevals, hfe, hfeS]
        rfl
    | some c =>
        have hfeS : FEVALS_PER_STEP itgS._step_type = some c := htype ▸ hfe
        simp only [expSolveGSBatch, expSolveGS]
        rw [integrate_eq_ok itgB (getForceUnraveled metricB)
          ((fun _ => base_point), tangent_vec) 1 c h0 hfe]
        rw [integrate_eq_ok itgS (getForceUnraveled metricS)
          (base_point, tangent_vec i) 1 c h0S hfeS]
        simp only [gsResult]
        have hmap : (((fun _ => base_point : Fin k → V), tangent_vec) ::
            integrateLoop itgB (getForceUnraveled metricB) (1 / (itgB.n_steps : ℚ))
              ((fun _ => base_point), tangent_vec) 0 itgB.n_steps).map
                (fun p : (Fin k → V) × (Fin k → V) => (p.1 i, p.2 i)) =
            ((base_point, tangent_vec i) ::
            integrateLoop itgS (getForceUnraveled metricS) (1 / (itgS.n_steps : ℚ))
              (base_point, tangent_vec i) 0 itgS.n_steps) := by
          rw [List.map_cons,
            integrateLoop_map itgB itgS _ (getForceUnraveled metricB)
              (getForceUnraveled metricS) hstepφ, hn]
        rw [← hmap, getLast?_map]
        cases hlast : (((fun _ => base_point : Fin k → V), tangent_vec) ::
            integrateLoop itgB (getForceUnraveled metricB) (1 / (itgB.n_steps : ℚ))
              ((fun _ => base_point), tangent_vec) 0 itgB.n_steps).getLast? with
        | none => rfl
        | some lB => rfl

/-- A concrete batched integrator over `Fin 2`-indexed batches (2 Euler
steps), configured like `itgEulerPair`. -/
def itgEulerBatch2 : GSIntegrator ((Fin 2 → ℚ) × (Fin 2 → ℚ)) :=
  ⟨2, some "euler", eulerStep, false, none, false, false⟩

/-- The Euclidean metric on batches of 2 points of `ℚ`. -/
def metricEuclidBatch2 : Metric (Fin 2 → ℚ) := ⟨1, fun s _ => (s.2, 0)⟩

/-- Witness for claim C8: a concrete one-to-many batched exponential map
agrees at batch index 0 with the individual call. -/
theorem exp_solve_batch_broadcast_witness :
    (itgEulerBatch2.n_steps = itgEulerPair.n_steps
      ∧ itgEulerBatch2._step_type = itgEulerPair._step_type
      ∧ ∀ (a b : Fin 2 → ℚ) (t : ℚ),
          metricEuclidBatch2.geodesic_equation (a, b) t =
            (fun j => (metricEuclid.geodesic_equation (a j, b j) t).1,
             fun j => (metricEuclid.geodesic_equation (a j, b j) t).2))
    ∧ Except.map (fun p => p (0 : Fin 2))
        (expSolveGSBatch 2 itgEulerBatch2 metricEuclidBatch2 (fun _ => 2) 5) =
      expSolveGS itgEulerPair metricEuclid ((fun _ => (2 : ℚ)) (0 : Fin 2)) 5 :=
  ⟨⟨rfl, rfl, fun _ _ _ => rfl⟩,
   exp_solve_batch_broadcast ℚ 2 itgEulerBatch2 itgEulerPair metricEuclidBatch2 metricEuclid
     (fun _ => 2) 5 0 rfl rfl (Or.inl ⟨rfl, rfl⟩) (fun _ _ _ => rfl)⟩
